import Mathlib

set_option linter.unusedVariables false

/-!
Shallow embedding of the Counterspot counting engine (src/index.ts).

Modelling conventions:
* JS numbers are modelled as exact rationals (`ℚ`); IEEE overflow to
  Infinity is idealised away, and the JS NaN produced by a failed
  `parseFloat` is modelled as `Option.none`.
* The JS record `countStats` is modelled as an insertion-ordered
  association list, matching JS object key ordering.
* Discord/network side effects (issue reports, pinning, the goal
  announcement, role grants) are modelled as emitted intents, and the
  possible failures of the awaited collaborator calls inside the goal
  handler (the guild-member fetch and the two role grants) as an explicit
  environment `CollaboratorFailures`.  An uncaught rejection of the
  member fetch aborts the handler exactly as the missing try/catch around
  `message.guild.members.fetch` does in the source; the two role-grant
  calls are wrapped in try/catch in the source, so their failures only
  change the success flag of the recorded attempt.
* Presentation-only configuration (report embeds, deletion timeout, log
  channel) is omitted: it never feeds back into engine state.
-/

/-- A counter's statistics for a certain period (interface `CounterStatistics`). -/
structure CounterStatistics where
  counts : ℚ
deriving DecidableEq, Repr

/-- The engine's mutable state (interface `CountingCache`). -/
structure CountingCache where
  countStats : List (String × CounterStatistics)
  lastCount : ℚ
  lastCounter : Option String
deriving DecidableEq, Repr

/-- Fields of `CountConfig` used by the engine (src/utils/get-config.ts).
`direction` is `-1` (NEGATIVE), `1` (POSITIVE), or any other number for
any direction. -/
structure CountConfig where
  amount : ℚ
  direction : ℚ
  multipleBySameUser : Bool
deriving DecidableEq, Repr

/-- `GoalRolesConfig` from src/utils/get-config.ts; empty snowflake strings
are falsy in the source's truthiness checks. -/
structure GoalRolesConfig where
  achiever : String
  assistant : String
deriving DecidableEq, Repr

/-- `GoalConfig` from src/utils/get-config.ts. -/
structure GoalConfig where
  announce : Bool
  multiple : ℚ
  pin : Bool
  reset : Bool
  resetValue : ℚ
  roles : GoalRolesConfig
  trackStatistics : Bool
deriving DecidableEq, Repr

/-- The engine-relevant part of `CounterspotConfig`.  `blacklist` is
`none` when the configured value is not an array (the source guards with
`Array.isArray`). -/
structure CounterspotConfig where
  blacklist : Option (List String)
  channel : String
  count : CountConfig
  goal : GoalConfig
deriving DecidableEq, Repr

/-- An inbound message event: participant id, automation flag, channel and
raw text body. -/
structure InboundMessage where
  authorId : String
  authorBot : Bool
  channelId : String
  content : String
deriving DecidableEq, Repr

/-- Which role reward a grant attempt is for. -/
inductive RoleKind where
  | achiever
  | assistant
deriving DecidableEq, Repr

/-- Outbound intents the engine emits for the notification sink. -/
inductive Intent where
  | issueReport (issue : String) (emoji : String)
  | pinMessage
  | goalAnnouncement (fields : List (String × String))
  | roleGrant (kind : RoleKind) (roleId : String) (succeeded : Bool)
deriving DecidableEq, Repr

/-- Terminal classification of one inbound message. -/
inductive Outcome where
  | ignoredBot
  | ignoredWrongChannel
  | rejectedBlacklisted
  | rejectedNotANumber
  | rejectedWrongValue
  | rejectedRepeatedCounter
  | accepted (reachedGoal : Bool)
deriving DecidableEq, Repr

/-- Failure environment for the awaited collaborator calls inside the goal
handler. -/
structure CollaboratorFailures where
  fetchFails : Bool
  achieverFails : Bool
  assistantFails : Bool
deriving DecidableEq, Repr

/-- Result of processing one inbound message: classification, the state
left in memory, the emitted intents, and whether `saveCache` was reached. -/
structure StepResult where
  outcome : Outcome
  cache : CountingCache
  intents : List Intent
  persisted : Bool
deriving DecidableEq, Repr

/-- Keeps the characters JS regex `[^\d.]` removes; `replace(/[^\d.]/g, "")`
is `filter isDigitOrDot`. -/
def isDigitOrDot (c : Char) : Bool := c.isDigit || c == '.'

/-- JS `String.prototype.split` with a single-character separator, on
character lists; always returns a nonempty list, `[[]]` on the empty
string, exactly as in JS. -/
def splitOnChar (sep : Char) : List Char → List (List Char)
  | [] => [[]]
  | c :: rest =>
      match splitOnChar sep rest with
      | [] => [[]]
      | t :: ts => if c = sep then [] :: t :: ts else (c :: t) :: ts

/-- Numeric value of a digit run, most significant first. -/
def digitsVal (ds : List Char) : ℚ :=
  ds.foldl (fun acc c => 10 * acc + ((c.toNat - 48 : ℕ) : ℚ)) 0

/-- JS `parseFloat` restricted to the sign-free, exponent-free strings the
engine feeds it (after stripping, only digits and periods remain): the
longest prefix matching `Digits [. Digits]` or `. Digits`, with `none`
for NaN when no such prefix exists.  Numbers are exact rationals. -/
def jsParseFloat (cs : List Char) : Option ℚ :=
  let intPart := cs.takeWhile Char.isDigit
  let rest := cs.dropWhile Char.isDigit
  if intPart.isEmpty then
    match rest with
    | '.' :: rest2 =>
        let frac := rest2.takeWhile Char.isDigit
        if frac.isEmpty then none
        else some (digitsVal frac / (10 : ℚ) ^ frac.length)
    | _ => none
  else
    match rest with
    | '.' :: rest2 =>
        let frac := rest2.takeWhile Char.isDigit
        some (digitsVal intPart + digitsVal frac / (10 : ℚ) ^ frac.length)
    | _ => some (digitsVal intPart)

/-- Whether a character list starts with a parseable numeric prefix:
a digit, or a period followed by a digit. -/
def startsWithNumber : List Char → Bool
  | [] => false
  | c :: rest =>
      if c.isDigit then true
      else if c = '.' then
        match rest with
        | d :: _ => d.isDigit
        | [] => false
      else false

/-- `parseCount` (src/index.ts line 90): take `content.split(" ")[0]`,
strip every character that is not a digit or period, parse as a number. -/
def parseCount (content : String) : Option ℚ :=
  let numberString := (splitOnChar ' ' content.toList).headD []
  jsParseFloat (numberString.filter isDigitOrDot)

/-- Modelled from the spec: the parsing pipeline as §4.1 words it, with the
first WHITESPACE-delimited token of the body instead of the source's
`split(" ")[0]`; kept for comparison against `parseCount`. -/
def firstWhitespaceToken (cs : List Char) : List Char :=
  (cs.dropWhile Char.isWhitespace).takeWhile (fun c => !c.isWhitespace)

/-- Modelled from the spec: `parseCount` as specified, tokenizing on
whitespace rather than on the space character. -/
def parseCountSpec (content : String) : Option ℚ :=
  jsParseFloat ((firstWhitespaceToken content.toList).filter isDigitOrDot)

/-- `isCorrectCount` (src/index.ts line 100). -/
def isCorrectCount (cfg : CounterspotConfig) (cache : CountingCache) (count : ℚ) : Bool :=
  if cfg.count.direction = -1 then
    decide (count = cache.lastCount - cfg.count.amount)
  else if cfg.count.direction = 1 then
    decide (count = cache.lastCount + cfg.count.amount)
  else
    decide (|cache.lastCount - count| = cfg.count.amount)

/-- Locale formatting is presentation-only; modelled as plain printing. -/
def getLocaleCount (count : ℚ) : String := toString count

/-- `getExpectedCount` (src/index.ts line 123). -/
def getExpectedCount (cfg : CounterspotConfig) (cache : CountingCache) : String :=
  if cfg.count.direction = -1 then
    getLocaleCount (cache.lastCount - cfg.count.amount)
  else if cfg.count.direction = 1 then
    getLocaleCount (cache.lastCount + cfg.count.amount)
  else
    getLocaleCount (cache.lastCount - cfg.count.amount) ++ " or " ++
      getLocaleCount (cache.lastCount + cfg.count.amount)

/-- `isBlacklisted` (src/index.ts line 207): a non-array blacklist is
treated as empty. -/
def isBlacklisted (cfg : CounterspotConfig) (userId : String) : Bool :=
  match cfg.blacklist with
  | none => false
  | some l => l.contains userId

/-- Truncation toward zero, as the JS `%` operator truncates. -/
def jsTrunc (q : ℚ) : ℤ :=
  if 0 ≤ q then ⌊q⌋ else ⌈q⌉

/-- JS remainder `x % y`: `none` models the NaN produced when `y` is zero. -/
def jsRem (x y : ℚ) : Option ℚ :=
  if y = 0 then none else some (x - y * (jsTrunc (x / y) : ℚ))

/-- The goal test `count % this.config.goal.multiple === 0`
(src/index.ts line 311); `typeof this.config.goal === "object"` is always
true for the typed configuration. -/
def reachedGoalCheck (cfg : CounterspotConfig) (count : ℚ) : Bool :=
  decide (jsRem count cfg.goal.multiple = some 0)

/-- One line of the statistics report. -/
def statsLine (counterID : String) (stats : CounterStatistics) : String :=
  "• <@" ++ counterID ++ "> - " ++ toString stats.counts ++ " count" ++
    (if stats.counts = 1 then "" else "s")

/-- Stable insertion into a list ascending by `counts`. -/
def insertByCounts (e : String × CounterStatistics) :
    List (String × CounterStatistics) → List (String × CounterStatistics)
  | [] => [e]
  | x :: xs => if x.2.counts ≤ e.2.counts then x :: insertByCounts e xs else e :: x :: xs

/-- The stable ascending sort by `counts` performed by the comparator
`firstEntry[1].counts - secondEntry[1].counts` (src/index.ts line 244). -/
def sortByCounts : List (String × CounterStatistics) → List (String × CounterStatistics)
  | [] => []
  | x :: xs => insertByCounts x (sortByCounts xs)

/-- `getStatisticsReport` (src/index.ts line 241). -/
def getStatisticsReport (stats : List (String × CounterStatistics)) : String :=
  String.intercalate "\n" ((sortByCounts stats).map (fun e => statsLine e.1 e.2))

/-- JS object property write `stats[id] = v`: updates in place, appends at
the end when absent. -/
def recordSet (m : List (String × CounterStatistics)) (id : String)
    (v : CounterStatistics) : List (String × CounterStatistics) :=
  match m with
  | [] => [(id, v)]
  | (k, w) :: rest => if k = id then (k, v) :: rest else (k, w) :: recordSet rest id v

/-- The statistics recording block (src/index.ts lines 301-309): create a
zero entry when absent, then increment. -/
def recordCount (stats : List (String × CounterStatistics)) (id : String) :
    List (String × CounterStatistics) :=
  let stats1 := if (stats.lookup id).isNone then recordSet stats id ⟨0⟩ else stats
  match stats1.lookup id with
  | some s => recordSet stats1 id ⟨s.counts + 1⟩
  | none => stats1

/-- The state after the statistics block: recording happens only when
`config.goal.trackStatistics` is set. -/
def recordedCache (cfg : CounterspotConfig) (cache : CountingCache) (authorId : String) :
    CountingCache :=
  if cfg.goal.trackStatistics then
    { cache with countStats := recordCount cache.countStats authorId }
  else cache

/-- The `fields` property of the goal announcement embed
(src/index.ts lines 352-355). -/
def goalEmbedFields (cfg : CounterspotConfig)
    (stats : List (String × CounterStatistics)) : List (String × String) :=
  if cfg.goal.trackStatistics then []
  else [("Statistics", getStatisticsReport stats)]

/-- Result of `handleGoalReached`: the state it leaves behind, the intents
it emitted, and whether it ran to completion (`ok = false` when the
uncaught member fetch rejected). -/
structure GoalResult where
  cache : CountingCache
  intents : List Intent
  ok : Bool
deriving DecidableEq, Repr

/-- `handleGoalReached` (src/index.ts line 322).  The embed fields are
computed from `countStats` before the map is cleared; the member fetch is
not guarded by try/catch, so its failure aborts after the clearing but
before the role grants; each role grant is individually guarded. -/
def handleGoalReached (cfg : CounterspotConfig) (cache : CountingCache)
    (msg : InboundMessage) (count : ℚ) (f : CollaboratorFailures) : GoalResult :=
  let pinIntents : List Intent := if cfg.goal.pin then [Intent.pinMessage] else []
  let fields := goalEmbedFields cfg cache.countStats
  let cache2 : CountingCache := { cache with countStats := [] }
  let announceIntents : List Intent :=
    if cfg.goal.announce then [Intent.goalAnnouncement fields] else []
  if f.fetchFails then
    { cache := cache2, intents := pinIntents ++ announceIntents, ok := false }
  else
    let achieverIntents : List Intent :=
      if cfg.goal.roles.achiever ≠ "" then
        [Intent.roleGrant RoleKind.achiever cfg.goal.roles.achiever (!f.achieverFails)]
      else []
    let assistantIntents : List Intent :=
      if cfg.goal.roles.assistant ≠ "" then
        [Intent.roleGrant RoleKind.assistant cfg.goal.roles.assistant (!f.assistantFails)]
      else []
    { cache := cache2,
      intents := pinIntents ++ announceIntents ++ achieverIntents ++ assistantIntents,
      ok := true }

/-- The accepted tail of `handleCount` (src/index.ts lines 301-320):
statistics, goal handling, then the cache update and `saveCache` — which
are skipped when the goal handler aborted. -/
def handleCountAccepted (cfg : CounterspotConfig) (cache : CountingCache)
    (msg : InboundMessage) (c : ℚ) (f : CollaboratorFailures) : StepResult :=
  let cache1 := recordedCache cfg cache msg.authorId
  if reachedGoalCheck cfg c then
    let gr := handleGoalReached cfg cache1 msg c f
    if gr.ok then
      { outcome := Outcome.accepted true,
        cache := { gr.cache with
                    lastCounter := some msg.authorId,
                    lastCount := if cfg.goal.reset then cfg.goal.resetValue else c },
        intents := gr.intents, persisted := true }
    else
      { outcome := Outcome.accepted true, cache := gr.cache,
        intents := gr.intents, persisted := false }
  else
    { outcome := Outcome.accepted false,
      cache := { cache1 with lastCounter := some msg.authorId, lastCount := c },
      intents := [], persisted := true }

/-- `handleCount` (src/index.ts line 281). -/
def handleCount (cfg : CounterspotConfig) (cache : CountingCache)
    (msg : InboundMessage) (count : Option ℚ) (f : CollaboratorFailures) : StepResult :=
  match count with
  | none =>
      { outcome := Outcome.rejectedNotANumber, cache := cache,
        intents := [Intent.issueReport "Count was not found at the beginning of the message" "❔"],
        persisted := false }
  | some c =>
      if isCorrectCount cfg cache c = false then
        { outcome := Outcome.rejectedWrongValue, cache := cache,
          intents := [Intent.issueReport
            ("Count is incorrect (expected count: " ++ getExpectedCount cfg cache ++ ")") "⚠️"],
          persisted := false }
      else if cache.lastCounter = some msg.authorId ∧ cfg.count.multipleBySameUser = false then
        { outcome := Outcome.rejectedRepeatedCounter, cache := cache,
          intents := [Intent.issueReport "Cannot count multiple times in a row" "👥"],
          persisted := false }
      else
        handleCountAccepted cfg cache msg c f

/-- `handleMessage` (src/index.ts line 268): the full processing of one
inbound message event. -/
def handleMessage (cfg : CounterspotConfig) (cache : CountingCache)
    (msg : InboundMessage) (f : CollaboratorFailures) : StepResult :=
  if msg.authorBot then
    { outcome := Outcome.ignoredBot, cache := cache, intents := [], persisted := false }
  else if msg.channelId ≠ cfg.channel then
    { outcome := Outcome.ignoredWrongChannel, cache := cache, intents := [], persisted := false }
  else if isBlacklisted cfg msg.authorId then
    { outcome := Outcome.rejectedBlacklisted, cache := cache,
      intents := [Intent.issueReport "User is blacklisted from counting" "🚫"],
      persisted := false }
  else
    handleCount cfg cache msg (parseCount msg.content) f

/-- Forgets whether a recorded role-grant attempt succeeded, keeping which
grant was attempted. -/
def attemptView : Intent → Intent
  | Intent.roleGrant k r _ => Intent.roleGrant k r true
  | i => i

/-- A configuration fixture used by concrete witnesses: positive direction,
step 1, goal at multiples of 5, no reset, tracking on, no roles. -/
def cfgBase : CounterspotConfig :=
  { blacklist := some [],
    channel := "ch",
    count := { amount := 1, direction := 1, multipleBySameUser := false },
    goal := { announce := true, multiple := 5, pin := false, reset := false,
              resetValue := 0,
              roles := { achiever := "", assistant := "" },
              trackStatistics := true } }

/-- A state fixture: empty statistics, last count 5 by participant A. -/
def cacheA5 : CountingCache :=
  { countStats := [], lastCount := 5, lastCounter := some "A" }

/-- A failure-free collaborator environment. -/
def noFailures : CollaboratorFailures :=
  { fetchFails := false, achieverFails := false, assistantFails := false }

/-- A state fixture with one existing statistics entry, last count 4 by A. -/
def cache4A : CountingCache :=
  { countStats := [("A", ⟨3⟩)], lastCount := 4, lastCounter := some "A" }

/-- A state fixture with empty statistics, last count 4 by A. -/
def cache4 : CountingCache :=
  { countStats := [], lastCount := 4, lastCounter := some "A" }

/-- A fresh zero-valued state fixture. -/
def cacheZero : CountingCache :=
  { countStats := [], lastCount := 0, lastCounter := none }

/-- Message fixture: participant B posts the text 5 in the counting channel. -/
def msgB5 : InboundMessage :=
  { authorId := "B", authorBot := false, channelId := "ch", content := "5" }

/-- Message fixture: participant B posts the text 6. -/
def msgB6 : InboundMessage :=
  { authorId := "B", authorBot := false, channelId := "ch", content := "6" }

/-- Message fixture: participant A posts the text 6. -/
def msgA6 : InboundMessage :=
  { authorId := "A", authorBot := false, channelId := "ch", content := "6" }

/-- Message fixture: participant A posts the text 7. -/
def msgA7 : InboundMessage :=
  { authorId := "A", authorBot := false, channelId := "ch", content := "7" }

/-- A collaborator environment in which the guild-member fetch rejects. -/
def fetchFailure : CollaboratorFailures :=
  { fetchFails := true, achieverFails := false, assistantFails := false }

/-- Configuration fixture with any-offset direction and a negative amount. -/
def cfgAnyNeg : CounterspotConfig :=
  { cfgBase with count := { amount := -1, direction := 0, multipleBySameUser := false } }

/-- Configuration fixture with statistics tracking disabled. -/
def cfgNoTrack : CounterspotConfig :=
  { cfgBase with goal := { cfgBase.goal with trackStatistics := false } }

/-- Configuration fixture with both goal reward roles configured. -/
def cfgRoles : CounterspotConfig :=
  { cfgBase with goal := { cfgBase.goal with roles := { achiever := "R1", assistant := "R2" } } }

/-!
The arithmetic of `Rat` in the ambient library is `@[irreducible]`; the
concrete evaluations below only need it to unfold for `decide`/`rfl`.
-/
attribute [local semireducible] Rat.add Rat.sub Rat.mul Rat.inv Rat.ofScientific

/-- The JS split always produces at least one field. -/
theorem splitOnChar_ne_nil (sep : Char) (cs : List Char) : splitOnChar sep cs ≠ [] := by
  cases cs with
  | nil => simp [splitOnChar]
  | cons c rest =>
      simp only [splitOnChar]
      split
      · simp
      · split <;> simp

/-- The first field of the JS split is the prefix before the first separator. -/
theorem headD_splitOnChar (sep : Char) (cs : List Char) :
    (splitOnChar sep cs).headD [] = cs.takeWhile (fun c => c != sep) := by
  induction cs with
  | nil => rfl
  | cons c rest ih =>
      simp only [splitOnChar]
      cases h : splitOnChar sep rest with
      | nil => exact absurd h (splitOnChar_ne_nil sep rest)
      | cons t ts =>
          rw [h] at ih
          simp only [List.headD_cons] at ih
          by_cases hc : c = sep
          · subst hc
            simp [List.takeWhile_cons]
          · simp [hc, List.takeWhile_cons, ih]

/-- The parse fails exactly when the input has no leading numeric prefix. -/
theorem jsParseFloat_eq_none_iff (cs : List Char) :
    jsParseFloat cs = none ↔ startsWithNumber cs = false := by
  cases cs with
  | nil => simp [jsParseFloat, startsWithNumber]
  | cons c rest =>
      by_cases hd : c.isDigit
      · simp only [jsParseFloat, startsWithNumber, List.takeWhile_cons, List.dropWhile_cons, hd,
          if_true, List.isEmpty_cons, ite_true]
        rcases hr : List.dropWhile Char.isDigit rest with _ | ⟨c2, r2⟩ <;> simp
        · split <;> simp
      · by_cases hdot : c = '.'
        · subst hdot
          simp only [jsParseFloat, startsWithNumber, List.takeWhile_cons, List.dropWhile_cons] at *
          simp only [hd] at *
          cases rest with
          | nil => simp [jsParseFloat, startsWithNumber, hd]
          | cons d r =>
              by_cases hdd : d.isDigit
              · simp [jsParseFloat, startsWithNumber, hd, hdd, List.takeWhile_cons]
              · simp [jsParseFloat, startsWithNumber, hd, hdd, List.takeWhile_cons]
        · simp only [jsParseFloat, startsWithNumber, List.takeWhile_cons, List.dropWhile_cons, hd]
          simp [hd, hdot]

/-- Truncation is the identity on integers. -/
theorem jsTrunc_intCast (k : ℤ) : jsTrunc (k : ℚ) = k := by
  unfold jsTrunc
  split
  · exact Int.floor_intCast k
  · exact Int.ceil_intCast k

/-- The JS remainder is zero exactly on nonzero divisors dividing exactly. -/
theorem jsRem_eq_zero_iff (x m : ℚ) :
    jsRem x m = some 0 ↔ m ≠ 0 ∧ ∃ k : ℤ, x = (k : ℚ) * m := by
  unfold jsRem
  split
  next h => simp [h]
  next h =>
    simp only [Option.some.injEq]
    constructor
    · intro he
      refine ⟨h, jsTrunc (x / m), ?_⟩
      have hx : x = m * (jsTrunc (x / m) : ℚ) := by linarith
      rw [mul_comm] at hx
      exact hx
    · rintro ⟨-, k, rfl⟩
      have hq : ((k : ℚ) * m) / m = (k : ℚ) := by field_simp
      rw [hq, jsTrunc_intCast]
      ring

/-- Characterization of the goal test as exact integer divisibility. -/
theorem reachedGoalCheck_iff (cfg : CounterspotConfig) (c : ℚ) :
    reachedGoalCheck cfg c = true ↔
      cfg.goal.multiple ≠ 0 ∧ ∃ k : ℤ, c = (k : ℚ) * cfg.goal.multiple := by
  unfold reachedGoalCheck
  rw [decide_eq_true_iff]
  exact jsRem_eq_zero_iff c cfg.goal.multiple

/-- A property write is visible at its own key. -/
theorem lookup_recordSet_self (m : List (String × CounterStatistics)) (id : String)
    (v : CounterStatistics) : (recordSet m id v).lookup id = some v := by
  induction m with
  | nil => simp [recordSet, List.lookup]
  | cons e rest ih =>
      obtain ⟨k, w⟩ := e
      by_cases h : k = id
      · subst h
        simp [recordSet, List.lookup]
      · have hb : (id == k) = false := beq_eq_false_iff_ne.mpr (Ne.symm h)
        simp only [recordSet, if_neg h, List.lookup, hb]
        exact ih

/-- A property write leaves other keys untouched. -/
theorem lookup_recordSet_ne (m : List (String × CounterStatistics)) (id k : String)
    (v : CounterStatistics) (h : k ≠ id) :
    (recordSet m id v).lookup k = m.lookup k := by
  induction m with
  | nil =>
      have hb : (k == id) = false := beq_eq_false_iff_ne.mpr h
      simp [recordSet, List.lookup, hb]
  | cons e rest ih =>
      obtain ⟨k', w⟩ := e
      by_cases h' : k' = id
      · subst h'
        have hb : (k == k') = false := beq_eq_false_iff_ne.mpr h
        simp [recordSet, List.lookup, hb]
      · simp only [recordSet, if_neg h', List.lookup]
        cases hkk : k == k' <;> simp [ih]

/-- Recording a count never decreases any existing tally. -/
theorem lookup_recordCount_mono (stats : List (String × CounterStatistics)) (id k : String)
    (s : CounterStatistics) (h : stats.lookup k = some s) :
    ∃ s', (recordCount stats id).lookup k = some s' ∧ s.counts ≤ s'.counts := by
  unfold recordCount
  by_cases hk : k = id
  · subst hk
    simp only [h, Option.isNone_some, Bool.false_eq_true, if_false]
    exact ⟨⟨s.counts + 1⟩, lookup_recordSet_self stats k ⟨s.counts + 1⟩,
      by change s.counts ≤ s.counts + 1; linarith⟩
  · by_cases hid : (stats.lookup id).isNone
    · simp only [hid, if_true]
      rw [lookup_recordSet_self]
      exact ⟨s, by rw [lookup_recordSet_ne _ _ _ _ hk, lookup_recordSet_ne _ _ _ _ hk]; exact h,
        le_refl _⟩
    · simp only [hid, Bool.false_eq_true, if_false]
      rcases ho : stats.lookup id with _ | s0
      · rw [ho] at hid; simp at hid
      · simp only [ho]
        exact ⟨s, by rw [lookup_recordSet_ne _ _ _ _ hk]; exact h, le_refl _⟩

/-- The goal handler always clears the statistics map, aborted or not. -/
theorem hgr_cache (cfg : CounterspotConfig) (cache : CountingCache) (msg : InboundMessage)
    (c : ℚ) (f : CollaboratorFailures) :
    (handleGoalReached cfg cache msg c f).cache = { cache with countStats := [] } := by
  unfold handleGoalReached
  split_ifs <;> rfl

/-- The goal handler completes exactly when the member fetch does not fail. -/
theorem hgr_ok (cfg : CounterspotConfig) (cache : CountingCache) (msg : InboundMessage)
    (c : ℚ) (f : CollaboratorFailures) :
    (handleGoalReached cfg cache msg c f).ok = !f.fetchFails := by
  unfold handleGoalReached
  split_ifs <;> simp_all

/-- Any announcement the goal handler emits carries the embed fields
computed from the pre-clearing statistics. -/
theorem hgr_announce_mem (cfg : CounterspotConfig) (cache : CountingCache)
    (msg : InboundMessage) (c : ℚ) (f : CollaboratorFailures) (flds : List (String × String))
    (h : Intent.goalAnnouncement flds ∈ (handleGoalReached cfg cache msg c f).intents) :
    flds = goalEmbedFields cfg cache.countStats := by
  unfold handleGoalReached at h
  split_ifs at h <;> simp_all [List.mem_append]

/-- With a successful fetch, the two grant-failure flags change nothing in
the goal handler but the recorded success of the corresponding attempt. -/
theorem hgr_failure_invariance (cfg : CounterspotConfig) (cache : CountingCache)
    (msg : InboundMessage) (c : ℚ) (a b a' b' : Bool) :
    (handleGoalReached cfg cache msg c ⟨false, a, b⟩).cache =
      (handleGoalReached cfg cache msg c ⟨false, a', b'⟩).cache ∧
    (handleGoalReached cfg cache msg c ⟨false, a, b⟩).ok =
      (handleGoalReached cfg cache msg c ⟨false, a', b'⟩).ok ∧
    (handleGoalReached cfg cache msg c ⟨false, a, b⟩).intents.map attemptView =
      (handleGoalReached cfg cache msg c ⟨false, a', b'⟩).intents.map attemptView := by
  unfold handleGoalReached
  split_ifs <;> simp [attemptView]

/-- Full behaviour of one processing step: either the message was not
accepted and the state is untouched, nothing was persisted and no goal
announcement was emitted, or it passed every guard and the step is the
accepted tail at the parsed count. -/
theorem step_behavior (cfg : CounterspotConfig) (cache : CountingCache)
    (msg : InboundMessage) (f : CollaboratorFailures) :
    ((handleMessage cfg cache msg f).cache = cache ∧
     (handleMessage cfg cache msg f).persisted = false ∧
     (∀ flds, Intent.goalAnnouncement flds ∉ (handleMessage cfg cache msg f).intents) ∧
     (∀ g, (handleMessage cfg cache msg f).outcome ≠ Outcome.accepted g)) ∨
    (∃ c, parseCount msg.content = some c ∧
      msg.authorBot = false ∧ msg.channelId = cfg.channel ∧
      isBlacklisted cfg msg.authorId = false ∧
      isCorrectCount cfg cache c = true ∧
      ¬(cache.lastCounter = some msg.authorId ∧ cfg.count.multipleBySameUser = false) ∧
      (handleMessage cfg cache msg f).outcome = Outcome.accepted (reachedGoalCheck cfg c) ∧
      handleMessage cfg cache msg f = handleCountAccepted cfg cache msg c f) := by
  unfold handleMessage
  split_ifs with hb hch hbl
  · exact Or.inl ⟨rfl, rfl, by simp, by simp⟩
  · exact Or.inl ⟨rfl, rfl, by simp, by simp⟩
  · exact Or.inl ⟨rfl, rfl, by simp, by simp⟩
  · rcases hp : parseCount msg.content with _ | c <;> simp only [handleCount]
    · left
      refine ⟨?_, ?_, ?_, ?_⟩ <;> simp
    · split_ifs with hcor hrep
      · left
        refine ⟨?_, ?_, ?_, ?_⟩ <;> simp
      · left
        refine ⟨?_, ?_, ?_, ?_⟩ <;> simp
      · refine Or.inr ⟨c, rfl, ?_, ?_, ?_, ?_, hrep, ?_, rfl⟩
        · simpa using hb
        · simpa using hch
        · simpa using hbl
        · simpa using hcor
        · unfold handleCountAccepted
          rcases hR : reachedGoalCheck cfg c with _ | _
          · rfl
          · cases hok : (handleGoalReached cfg (recordedCache cfg cache msg.authorId) msg c f).ok <;>
              simp [hok]

/-- The accepted tail when no goal fired: plain cache update, no intents. -/
theorem hca_no_goal (cfg : CounterspotConfig) (cache : CountingCache) (msg : InboundMessage)
    (c : ℚ) (f : CollaboratorFailures) (h : reachedGoalCheck cfg c = false) :
    handleCountAccepted cfg cache msg c f =
      { outcome := Outcome.accepted false,
        cache := { recordedCache cfg cache msg.authorId with
                    lastCounter := some msg.authorId, lastCount := c },
        intents := [], persisted := true } := by
  unfold handleCountAccepted
  simp [h]

/-- The accepted tail when a goal fired and the member fetch succeeded. -/
theorem hca_goal_ok (cfg : CounterspotConfig) (cache : CountingCache) (msg : InboundMessage)
    (c : ℚ) (f : CollaboratorFailures) (h : reachedGoalCheck cfg c = true)
    (hf : f.fetchFails = false) :
    handleCountAccepted cfg cache msg c f =
      { outcome := Outcome.accepted true,
        cache := { countStats := [],
                   lastCount := if cfg.goal.reset then cfg.goal.resetValue else c,
                   lastCounter := some msg.authorId },
        intents := (handleGoalReached cfg (recordedCache cfg cache msg.authorId) msg c f).intents,
        persisted := true } := by
  unfold handleCountAccepted
  simp only [h, if_true]
  rw [hgr_ok]
  simp [hf, hgr_cache]

/-- The accepted tail when a goal fired and the member fetch rejected:
statistics are already cleared, but the cache update and `saveCache` are
skipped. -/
theorem hca_goal_abort (cfg : CounterspotConfig) (cache : CountingCache) (msg : InboundMessage)
    (c : ℚ) (f : CollaboratorFailures) (h : reachedGoalCheck cfg c = true)
    (hf : f.fetchFails = true) :
    handleCountAccepted cfg cache msg c f =
      { outcome := Outcome.accepted true,
        cache := { recordedCache cfg cache msg.authorId with countStats := [] },
        intents := (handleGoalReached cfg (recordedCache cfg cache msg.authorId) msg c f).intents,
        persisted := false } := by
  unfold handleCountAccepted
  simp only [h, if_true]
  rw [hgr_ok]
  simp [hf, hgr_cache]

/-- Statistics recording is the identity when tracking is disabled. -/
theorem recordedCache_untracked (cfg : CounterspotConfig) (cache : CountingCache)
    (authorId : String) (ht : cfg.goal.trackStatistics = false) :
    recordedCache cfg cache authorId = cache := by
  unfold recordedCache
  simp [ht]

/-- With a successful fetch, the accepted tail is unchanged by the two
grant-failure flags except for the attempts' recorded success. -/
theorem hca_failure_invariance (cfg : CounterspotConfig) (cache : CountingCache)
    (msg : InboundMessage) (c : ℚ) (a b a' b' : Bool) :
    (handleCountAccepted cfg cache msg c ⟨false, a, b⟩).outcome =
      (handleCountAccepted cfg cache msg c ⟨false, a', b'⟩).outcome ∧
    (handleCountAccepted cfg cache msg c ⟨false, a, b⟩).cache =
      (handleCountAccepted cfg cache msg c ⟨false, a', b'⟩).cache ∧
    (handleCountAccepted cfg cache msg c ⟨false, a, b⟩).persisted =
      (handleCountAccepted cfg cache msg c ⟨false, a', b'⟩).persisted ∧
    (handleCountAccepted cfg cache msg c ⟨false, a, b⟩).intents.map attemptView =
      (handleCountAccepted cfg cache msg c ⟨false, a', b'⟩).intents.map attemptView := by
  rcases hR : reachedGoalCheck cfg c with _ | _
  · rw [hca_no_goal cfg cache msg c _ hR, hca_no_goal cfg cache msg c _ hR]
    exact ⟨rfl, rfl, rfl, rfl⟩
  · rw [hca_goal_ok cfg cache msg c _ hR rfl, hca_goal_ok cfg cache msg c _ hR rfl]
    exact ⟨rfl, rfl, rfl,
      (hgr_failure_invariance cfg (recordedCache cfg cache msg.authorId) msg c a b a' b').2.2⟩

/-- Claim C1 (amended): for every inbound message that reaches the
Accepted outcome, provided the goal handler's member lookup did not fail,
the engine afterwards sets lastCounter to the posting participant and
sets lastCount to config.goal.resetValue when a goal fired with reset
enabled, and to the accepted count value otherwise. -/
theorem c1_accepted_updates (cfg : CounterspotConfig) (cache : CountingCache)
    (msg : InboundMessage) (f : CollaboratorFailures) (g : Bool)
    (hf : f.fetchFails = false)
    (h : (handleMessage cfg cache msg f).outcome = Outcome.accepted g) :
    (handleMessage cfg cache msg f).cache.lastCounter = some msg.authorId ∧
    ∃ c, parseCount msg.content = some c ∧ reachedGoalCheck cfg c = g ∧
      (handleMessage cfg cache msg f).cache.lastCount =
        (if g = true ∧ cfg.goal.reset = true then cfg.goal.resetValue else c) := by
  rcases step_behavior cfg cache msg f with ⟨-, -, -, hno⟩ | ⟨c, hp, -, -, -, -, -, ho, heq⟩
  · exact absurd h (hno g)
  · have hg : reachedGoalCheck cfg c = g := by
      have := ho.symm.trans h
      simpa using this
    cases g
    · rw [heq, hca_no_goal cfg cache msg c f hg]
      refine ⟨rfl, c, hp, hg, ?_⟩
      simp
    · rw [heq, hca_goal_ok cfg cache msg c f hg hf]
      refine ⟨rfl, c, hp, hg, ?_⟩
      by_cases hr : cfg.goal.reset = true
      · simp [hr]
      · simp [hr]

/-- Claim C1 witness: a concrete accepted goal count by B updates
lastCounter to B. -/
theorem c1_witness :
    (handleMessage cfgBase cache4A msgB5 noFailures).cache.lastCounter = some "B" :=
  (c1_accepted_updates cfgBase cache4A msgB5 noFailures true rfl (by decide)).1

/-- Claim C1 counterexample: a message by B reaches the Accepted outcome,
yet because the goal handler's member fetch rejected, lastCounter is not
set to B and nothing is persisted. -/
theorem c1_counterexample :
    (handleMessage cfgBase cache4A msgB5 fetchFailure).outcome = Outcome.accepted true ∧
    msgB5.authorId = "B" ∧
    (handleMessage cfgBase cache4A msgB5 fetchFailure).cache.lastCounter ≠ some "B" ∧
    (handleMessage cfgBase cache4A msgB5 fetchFailure).persisted = false := by decide

/-- Claim C2: every rejected outcome (blacklisted participant, unparseable
count, wrong value, repeated turn) leaves the engine state unchanged:
lastCount, lastCounter and every entry of countStats are as before. -/
theorem c2_rejection_preserves_state (cfg : CounterspotConfig) (cache : CountingCache)
    (msg : InboundMessage) (f : CollaboratorFailures)
    (h : (handleMessage cfg cache msg f).outcome = Outcome.rejectedBlacklisted ∨
         (handleMessage cfg cache msg f).outcome = Outcome.rejectedNotANumber ∨
         (handleMessage cfg cache msg f).outcome = Outcome.rejectedWrongValue ∨
         (handleMessage cfg cache msg f).outcome = Outcome.rejectedRepeatedCounter) :
    (handleMessage cfg cache msg f).cache = cache := by
  rcases step_behavior cfg cache msg f with ⟨hc, -, -, -⟩ | ⟨c, -, -, -, -, -, -, ho, -⟩
  · exact hc
  · rw [ho] at h
    rcases h with h | h | h | h <;> simp at h

/-- Claim C2 witness: blacklisted participant C posting a numerically
correct count leaves the state unchanged. -/
theorem c2_witness :
    (handleMessage { cfgBase with blacklist := some ["C"] } cacheA5
      { authorId := "C", authorBot := false, channelId := "ch", content := "6" }
      noFailures).cache = cacheA5 :=
  c2_rejection_preserves_state _ _ _ _ (Or.inl (by decide))

/-- Claim C3 (amended): isCorrectCount accepts exactly
lastCount - amount for the negative direction, exactly lastCount + amount
for the positive direction, and for any other direction exactly the
counts with abs(lastCount - count) = amount — which, when the configured
amount is nonnegative, are exactly the two values lastCount + amount and
lastCount - amount. -/
theorem c3_isCorrect_characterization (cfg : CounterspotConfig) (cache : CountingCache)
    (count : ℚ) :
    (cfg.count.direction = -1 →
      (isCorrectCount cfg cache count = true ↔ count = cache.lastCount - cfg.count.amount)) ∧
    (cfg.count.direction = 1 →
      (isCorrectCount cfg cache count = true ↔ count = cache.lastCount + cfg.count.amount)) ∧
    (cfg.count.direction ≠ -1 → cfg.count.direction ≠ 1 →
      ((isCorrectCount cfg cache count = true ↔ |cache.lastCount - count| = cfg.count.amount) ∧
       (0 ≤ cfg.count.amount →
         (isCorrectCount cfg cache count = true ↔
           (count = cache.lastCount + cfg.count.amount ∨
            count = cache.lastCount - cfg.count.amount))))) := by
  unfold isCorrectCount
  refine ⟨?_, ?_, ?_⟩
  · intro h
    rw [h]
    norm_num
  · intro h
    rw [h]
    norm_num
  · intro h1 h2
    have habs : (if cfg.count.direction = -1 then decide (count = cache.lastCount - cfg.count.amount)
        else if cfg.count.direction = 1 then decide (count = cache.lastCount + cfg.count.amount)
        else decide (|cache.lastCount - count| = cfg.count.amount)) = true ↔
        |cache.lastCount - count| = cfg.count.amount := by
      rw [if_neg h1, if_neg h2]
      simp
    refine ⟨habs, ?_⟩
    intro ha
    rw [habs, abs_eq ha]
    constructor
    · rintro (h3 | h3)
      · right; linarith
      · left; linarith
    · rintro (h3 | h3)
      · right; linarith
      · left; linarith

/-- Claim C3 witness: with positive direction and amount 1 after 5,
the count 6 is correct. -/
theorem c3_witness : isCorrectCount cfgBase cacheA5 6 = true :=
  ((c3_isCorrect_characterization cfgBase cacheA5 6).2.1 rfl).mpr (by norm_num [cfgBase, cacheA5])

/-- Claim C3 counterexample: with any-offset direction and amount -1 over
lastCount 0, the value lastCount + amount = -1 is rejected, refuting that
any-offset mode accepts the two values lastCount ± amount for every
config. -/
theorem c3_counterexample :
    cfgAnyNeg.count.direction ≠ -1 ∧ cfgAnyNeg.count.direction ≠ 1 ∧
    (-1 : ℚ) = cacheZero.lastCount + cfgAnyNeg.count.amount ∧
    isCorrectCount cfgAnyNeg cacheZero (-1) = false := by decide

/-- Claim C4 (amended): a message whose author equals lastCounter while
multipleBySameUser is false is rejected with RepeatedCounter provided its
count parses and is numerically correct; the wrong-value check runs
first, so an incorrect value is reported as WrongValue instead. -/
theorem c4_repeated_turn (cfg : CounterspotConfig) (cache : CountingCache)
    (msg : InboundMessage) (f : CollaboratorFailures) (c : ℚ)
    (hbot : msg.authorBot = false) (hch : msg.channelId = cfg.channel)
    (hbl : isBlacklisted cfg msg.authorId = false)
    (hp : parseCount msg.content = some c)
    (hcor : isCorrectCount cfg cache c = true)
    (hl : cache.lastCounter = some msg.authorId)
    (hm : cfg.count.multipleBySameUser = false) :
    (handleMessage cfg cache msg f).outcome = Outcome.rejectedRepeatedCounter := by
  unfold handleMessage
  rw [if_neg (by simp [hbot]), if_neg (by simp [hch]), if_neg (by simp [hbl]), hp]
  simp only [handleCount]
  rw [if_neg (by simp [hcor]), if_pos ⟨hl, hm⟩]

/-- Claim C4 witness: A repeating a turn with the correct value 6 is
rejected as a repeated counter. -/
theorem c4_witness :
    (handleMessage cfgBase cacheA5 msgA6 noFailures).outcome = Outcome.rejectedRepeatedCounter :=
  c4_repeated_turn cfgBase cacheA5 msgA6 noFailures 6 rfl rfl rfl (by decide) (by decide) rfl rfl

/-- Claim C4 counterexample: A repeats a turn with the wrong value 7;
despite lastCounter = A and multipleBySameUser = false the engine signals
WrongValue, not RepeatedCounter. -/
theorem c4_counterexample :
    cacheA5.lastCounter = some msgA7.authorId ∧ cfgBase.count.multipleBySameUser = false ∧
    (handleMessage cfgBase cacheA5 msgA7 noFailures).outcome = Outcome.rejectedWrongValue ∧
    (handleMessage cfgBase cacheA5 msgA7 noFailures).outcome ≠ Outcome.rejectedRepeatedCounter := by
  decide

/-- Claim C5: goal detection is true iff the count is an exact integer
multiple of the (nonzero) configured goal multiple; when it is false, the
step emits no intents at all, does not clear the statistics beyond the
normal recording, and writes the raw count to lastCount. -/
theorem c5_goal_detection (cfg : CounterspotConfig) (cache : CountingCache)
    (msg : InboundMessage) (f : CollaboratorFailures) :
    (∀ c : ℚ, reachedGoalCheck cfg c = true ↔
      cfg.goal.multiple ≠ 0 ∧ ∃ k : ℤ, c = (k : ℚ) * cfg.goal.multiple) ∧
    ((handleMessage cfg cache msg f).outcome = Outcome.accepted false →
      (handleMessage cfg cache msg f).intents = [] ∧
      (handleMessage cfg cache msg f).cache.countStats =
        (recordedCache cfg cache msg.authorId).countStats ∧
      ∃ c, parseCount msg.content = some c ∧ reachedGoalCheck cfg c = false ∧
        (handleMessage cfg cache msg f).cache.lastCount = c) := by
  refine ⟨fun c => reachedGoalCheck_iff cfg c, ?_⟩
  intro h
  rcases step_behavior cfg cache msg f with ⟨-, -, -, hno⟩ | ⟨c, hp, -, -, -, -, -, ho, heq⟩
  · exact absurd h (hno false)
  · have hg : reachedGoalCheck cfg c = false := by
      have := ho.symm.trans h
      simpa using this
    rw [heq, hca_no_goal cfg cache msg c f hg]
    exact ⟨rfl, rfl, c, hp, hg, rfl⟩

/-- Claim C5 witness: the accepted non-goal count 6 triggers no goal side
effects. -/
theorem c5_witness : (handleMessage cfgBase cacheA5 msgB6 noFailures).intents = [] :=
  ((c5_goal_detection cfgBase cacheA5 msgB6 noFailures).2 (by decide)).1

/-- Claim C6 (amended): when the goal handler's member lookup succeeds,
the failure of either role-grant operation changes nothing about the
step — same outcome, same state, same persistence, and the same grant
attempts (only their recorded success differs); in particular one failing
grant never prevents the other attempt, the cache update or the
persistence attempt. -/
theorem c6_grant_failures_isolated (cfg : CounterspotConfig) (cache : CountingCache)
    (msg : InboundMessage) (a b a' b' : Bool) :
    (handleMessage cfg cache msg ⟨false, a, b⟩).outcome =
      (handleMessage cfg cache msg ⟨false, a', b'⟩).outcome ∧
    (handleMessage cfg cache msg ⟨false, a, b⟩).cache =
      (handleMessage cfg cache msg ⟨false, a', b'⟩).cache ∧
    (handleMessage cfg cache msg ⟨false, a, b⟩).persisted =
      (handleMessage cfg cache msg ⟨false, a', b'⟩).persisted ∧
    (handleMessage cfg cache msg ⟨false, a, b⟩).intents.map attemptView =
      (handleMessage cfg cache msg ⟨false, a', b'⟩).intents.map attemptView := by
  unfold handleMessage
  split_ifs
  · exact ⟨rfl, rfl, rfl, rfl⟩
  · exact ⟨rfl, rfl, rfl, rfl⟩
  · exact ⟨rfl, rfl, rfl, rfl⟩
  · rcases hp : parseCount msg.content with _ | c <;> simp only [handleCount]
    · refine ⟨?_, ?_, ?_, ?_⟩ <;> simp
    · split_ifs
      · exact ⟨rfl, rfl, rfl, rfl⟩
      · exact ⟨rfl, rfl, rfl, rfl⟩
      · exact hca_failure_invariance cfg cache msg c a b a' b'

/-- Claim C6 counterexample: with both reward roles configured, a failing
member lookup on a goal count means no role grant is even attempted, the
cache update is skipped and nothing is persisted. -/
theorem c6_counterexample :
    (handleMessage cfgRoles cache4A msgB5 fetchFailure).outcome = Outcome.accepted true ∧
    cfgRoles.goal.roles.achiever ≠ "" ∧ cfgRoles.goal.roles.assistant ≠ "" ∧
    (handleMessage cfgRoles cache4A msgB5 fetchFailure).intents = [Intent.goalAnnouncement []] ∧
    (handleMessage cfgRoles cache4A msgB5 fetchFailure).persisted = false ∧
    (handleMessage cfgRoles cache4A msgB5 fetchFailure).cache.lastCounter = some "A" := by decide

/-- Claim C7 (amended): parseCount takes the first space-delimited field
of the text (the prefix before the first space character, as the source's
split on a single space does), strips every character that is not a digit
or a decimal point, parses the remainder as a number, and returns the
NotANumber sentinel exactly when the remainder has no leading numeric
prefix. -/
theorem c7_parse_pipeline (content : String) :
    parseCount content =
      jsParseFloat ((content.toList.takeWhile (fun ch => ch != ' ')).filter isDigitOrDot) ∧
    (parseCount content = none ↔
      startsWithNumber ((content.toList.takeWhile (fun ch => ch != ' ')).filter isDigitOrDot)
        = false) := by
  have h1 : parseCount content =
      jsParseFloat ((content.toList.takeWhile (fun ch => ch != ' ')).filter isDigitOrDot) := by
    unfold parseCount
    rw [headD_splitOnChar]
  exact ⟨h1, by rw [h1]; exact jsParseFloat_eq_none_iff _⟩

/-- Claim C7 counterexample: on a text whose first whitespace-delimited
token is 1 but whose first space-delimited field is the whole text, the
source parses 12 while the specified whitespace tokenization parses 1. -/
theorem c7_counterexample :
    parseCount "1\t2" = some 12 ∧ parseCountSpec "1\t2" = some 1 ∧
    parseCount "1\t2" ≠ parseCountSpec "1\t2" := by decide

/-- Claim C8: an accepted count that fired a goal leaves the statistics
map empty (cleared atomically within the same step, whether or not
tracking is enabled and even when the goal handler aborted), and any
other processed event never decreases any participant's recorded count. -/
theorem c8_stats_invariant (cfg : CounterspotConfig) (cache : CountingCache)
    (msg : InboundMessage) (f : CollaboratorFailures) :
    ((handleMessage cfg cache msg f).outcome = Outcome.accepted true →
      (handleMessage cfg cache msg f).cache.countStats = []) ∧
    ((handleMessage cfg cache msg f).outcome ≠ Outcome.accepted true →
      ∀ id s, cache.countStats.lookup id = some s →
        ∃ s', ((handleMessage cfg cache msg f).cache.countStats.lookup id) = some s' ∧
          s.counts ≤ s'.counts) := by
  constructor
  · intro h
    rcases step_behavior cfg cache msg f with ⟨-, -, -, hno⟩ | ⟨c, -, -, -, -, -, -, ho, heq⟩
    · exact absurd h (hno true)
    · have hg : reachedGoalCheck cfg c = true := by
        have := ho.symm.trans h
        simpa using this
      rw [heq]
      cases hf : f.fetchFails
      · rw [hca_goal_ok cfg cache msg c f hg hf]
      · rw [hca_goal_abort cfg cache msg c f hg hf]
  · intro h id s hs
    rcases step_behavior cfg cache msg f with ⟨hc, -, -, -⟩ | ⟨c, -, -, -, -, -, -, ho, heq⟩
    · rw [hc]
      exact ⟨s, hs, le_refl _⟩
    · have hg : reachedGoalCheck cfg c = false := by
        rcases hR : reachedGoalCheck cfg c with _ | _
        · rfl
        · rw [hR] at ho
          exact absurd ho h
      rw [heq, hca_no_goal cfg cache msg c f hg]
      show ∃ s', ((recordedCache cfg cache msg.authorId).countStats.lookup id) = some s' ∧
        s.counts ≤ s'.counts
      unfold recordedCache
      split_ifs
      · exact lookup_recordCount_mono cache.countStats msg.authorId id s hs
      · exact ⟨s, hs, le_refl _⟩

/-- Claim C8 witness: a goal count clears a previously nonempty
statistics map. -/
theorem c8_witness : (handleMessage cfgBase cache4A msgB5 noFailures).cache.countStats = [] :=
  (c8_stats_invariant cfgBase cache4A msgB5 noFailures).1 (by decide)

/-- Claim C9: parseCount is a pure deterministic function of the text:
two evaluations on the same fixed text give equal results, including when
the result is the NotANumber sentinel. -/
theorem c9_parse_deterministic (text : String) : parseCount text = parseCount text := rfl

/-- Claim C10: the goal announcement embed carries a Statistics field iff
statistics tracking is disabled, and — since tallies are only recorded
when tracking is enabled — a run with tracking disabled keeps the map
empty, so any announced Statistics field is rendered from the empty map. -/
theorem c10_statistics_field (cfg : CounterspotConfig) (cache : CountingCache)
    (msg : InboundMessage) (f : CollaboratorFailures)
    (stats : List (String × CounterStatistics)) :
    ((∃ v, ("Statistics", v) ∈ goalEmbedFields cfg stats) ↔
      cfg.goal.trackStatistics = false) ∧
    (cfg.goal.trackStatistics = false → cache.countStats = [] →
      (handleMessage cfg cache msg f).cache.countStats = [] ∧
      ∀ flds, Intent.goalAnnouncement flds ∈ (handleMessage cfg cache msg f).intents →
        flds = [("Statistics", getStatisticsReport [])]) := by
  constructor
  · unfold goalEmbedFields
    split_ifs with h
    · simp [h]
    · simp [h]
  · intro ht he
    have hrec : recordedCache cfg cache msg.authorId = cache :=
      recordedCache_untracked cfg cache msg.authorId ht
    rcases step_behavior cfg cache msg f with ⟨hc, -, hni, -⟩ | ⟨c, hp, -, -, -, -, -, ho, heq⟩
    · rw [hc]
      exact ⟨he, fun flds hmem => absurd hmem (hni flds)⟩
    · have hflds : ∀ flds,
          Intent.goalAnnouncement flds ∈
            (handleGoalReached cfg (recordedCache cfg cache msg.authorId) msg c f).intents →
          flds = [("Statistics", getStatisticsReport [])] := by
        intro flds hmem
        have hf' := hgr_announce_mem cfg _ msg c f flds hmem
        rw [hrec, he] at hf'
        rw [hf']
        unfold goalEmbedFields
        simp [ht]
      rcases hR : reachedGoalCheck cfg c with _ | _
      · rw [heq, hca_no_goal cfg cache msg c f hR]
        refine ⟨?_, ?_⟩
        · show (recordedCache cfg cache msg.authorId).countStats = []
          rw [hrec]
          exact he
        · intro flds hmem
          simp at hmem
      · cases hf : f.fetchFails
        · rw [heq, hca_goal_ok cfg cache msg c f hR hf]
          exact ⟨rfl, hflds⟩
        · rw [heq, hca_goal_abort cfg cache msg c f hR hf]
          exact ⟨rfl, hflds⟩

/-- Claim C10 witness: with tracking disabled and a fresh window, a goal
count leaves the statistics map empty. -/
theorem c10_witness : (handleMessage cfgNoTrack cache4 msgB5 noFailures).cache.countStats = [] :=
  ((c10_statistics_field cfgNoTrack cache4 msgB5 noFailures []).2 rfl rfl).1
